import Mathlib

/-!
Shallow embedding of the agent-forge task-scheduling subsystem.

Sources embedded (TypeScript, `src/backend/src/`):
- `types/task.ts` — task data model (`TaskStatus`, `TaskPriority`, `TaskContext`,
  `Task`, `TaskError`, `TaskResult`, `TaskProgress`, `TaskStatusUpdate`,
  `CreateTaskRequest`, `TaskExecutionHook`);
- `services/TaskQueueService.ts` — in-memory priority queue service
  (`enqueueTask`, `updateTaskStatus`, `cancelTask`, `processNextTask`,
  `checkWorkerHealth`, `registerWorker`, `executeStatusChangeHooks`);
- `services/AgentOrchestrationService.ts` — agent registry
  (`scheduleAgentTask`, `deleteAgent`);
- `app/api/v1/tasks/[id]/status/route.ts` — `validateTaskStatusUpdate`.

Modelling conventions:
- JavaScript `Date` values become `Nat` millisecond timestamps
  (`Date.getTime()`); `Date` comparisons become `Nat` comparisons.
- JavaScript `Map` objects become association lists `List (String × α)`
  with `List.lookup`; `Map.set` on an existing key is an in-place update,
  `Map.set` on a fresh key appends (JS maps preserve insertion order).
- The mutable `Task` objects shared by reference between `this.tasks` and
  the `queuesByPriority` arrays are modelled by keeping the queues as lists
  of task ids resolved through the task store, so that a status mutation is
  visible from the queues exactly as through the aliased JS object.
- Opaque payloads (`parameters`, agent `config`/`triggers`/`permissions`)
  are modelled as opaque strings or omitted where no modelled operation
  reads them.
- `generateTaskId` / `Date.now()` are nondeterministic; the fresh id and
  the current time are passed as explicit arguments.
-/

namespace AgentForge

/-- Enum `TaskStatus` from `types/task.ts`:
`'pending' | 'running' | 'completed' | 'failed' | 'cancelled' | 'timeout'`. -/
inductive TaskStatus where
  | pending | running | completed | failed | cancelled | timeout
deriving DecidableEq, Repr

/-- Enum `TaskPriority` from `types/task.ts`: `'low' | 'normal' | 'high' | 'urgent'`. -/
inductive TaskPriority where
  | low | normal | high | urgent
deriving DecidableEq, Repr

/-- Structure `TaskContext` from `types/task.ts`. -/
structure TaskContext where
  agentId : Option String := none
  userId : Option String := none
  requestId : Option String := none
  environment : String := "development"
  timeout : Option Nat := none
  maxRetries : Option Nat := none
  retryCount : Nat := 0
deriving DecidableEq, Repr

/-- Structure `TaskResult` from `types/task.ts` (the opaque `output` payload is a string). -/
structure TaskResult where
  success : Bool
  output : Option String := none
  executionTime : Nat := 0
deriving DecidableEq, Repr

/-- Structure `TaskError` from `types/task.ts`. -/
structure TaskError where
  timestamp : Nat
  message : String
  code : Option String := none
  retryAttempt : Nat := 0
  recoverable : Bool := false
deriving DecidableEq, Repr

/-- Structure `TaskProgress` from `types/task.ts`. -/
structure TaskProgress where
  percentage : Nat
  currentStep : String
deriving DecidableEq, Repr

/-- Structure `Task` from `types/task.ts` (field `type` is spelled `typ`). -/
structure Task where
  id : String
  typ : String
  name : String
  parameters : String := ""
  status : TaskStatus
  priority : TaskPriority
  context : TaskContext
  result : Option TaskResult := none
  progress : Option TaskProgress := none
  createdAt : Nat
  updatedAt : Nat
  scheduledAt : Option Nat := none
  startedAt : Option Nat := none
  completedAt : Option Nat := none
  dependencies : List String := []
  errors : List TaskError := []
deriving DecidableEq, Repr

/-- Structure `TaskStatusUpdate` from `types/task.ts`. -/
structure TaskStatusUpdate where
  status : TaskStatus
  result : Option TaskResult := none
  progress : Option TaskProgress := none
  error : Option TaskError := none
  timestamp : Nat
deriving DecidableEq, Repr

/-- Structure `CreateTaskRequest` from `types/task.ts`. -/
structure CreateTaskRequest where
  typ : String
  name : String
  parameters : String := ""
  priority : TaskPriority
  context : TaskContext
  scheduledAt : Option Nat := none
  dependencies : Option (List String) := none
deriving DecidableEq, Repr

/-- Worker status from `QueueWorker` in `TaskQueueService.ts`. -/
inductive WorkerStatus where
  | idle | busy | stopping | stopped
deriving DecidableEq, Repr

/-- Structure `QueueWorker` from `TaskQueueService.ts`. -/
structure QueueWorker where
  id : String
  status : WorkerStatus
  currentTasks : List String
  lastHeartbeat : Nat
  capabilities : List String
deriving DecidableEq, Repr

/-- A registered `TaskExecutionHook` (from `types/task.ts`), with each of the
four optional callbacks abstracted by its observable behaviour towards the
service: `none` means the callback is not registered, `some b` means it is
registered and throws iff `b` (the service never reads a hook's return
value, so a callback's behaviour is fully described by whether it throws). -/
structure TaskExecutionHook where
  beforeStart : Option Bool := none
  afterComplete : Option Bool := none
  onError : Option Bool := none
  onProgress : Option Bool := none
deriving DecidableEq, Repr

/-- The error codes the modelled `TaskQueueService` operations return. -/
inductive QueueError where
  | taskNotFound
  | taskAlreadyFinished
deriving DecidableEq, Repr

/-- The mutable state of a `TaskQueueService` instance: the `tasks` map, the
`workers` map and the four `queuesByPriority` buckets (created in the
constructor in insertion order urgent, high, normal, low). Queues hold task
ids; the JS arrays hold aliased `Task` objects whose current fields are
those stored in `tasks`. -/
structure QueueState where
  tasks : List (String × Task)
  workers : List (String × QueueWorker)
  urgentQ : List String
  highQ : List String
  normalQ : List String
  lowQ : List String
deriving DecidableEq, Repr

/-- The empty service state right after the constructor ran. -/
def QueueState.empty : QueueState :=
  { tasks := [], workers := [], urgentQ := [], highQ := [], normalQ := [], lowQ := [] }

/-- Lookup `this.tasks.get(taskId)`. -/
def lookupTask (st : QueueState) (taskId : String) : Option Task :=
  List.lookup taskId st.tasks

/-- In-place mutation of the task object stored under `taskId`
(JS mutates the object held in the map). -/
def updateTask (st : QueueState) (taskId : String) (f : Task → Task) : QueueState :=
  { st with tasks := st.tasks.map fun p => if p.1 = taskId then (p.1, f p.2) else p }

/-- Lookup `this.queuesByPriority.get(p)`. -/
def queueOf (st : QueueState) : TaskPriority → List String
  | .urgent => st.urgentQ
  | .high => st.highQ
  | .normal => st.normalQ
  | .low => st.lowQ

/-- Replace one priority bucket. -/
def setQueue (st : QueueState) : TaskPriority → List String → QueueState
  | .urgent, q => { st with urgentQ := q }
  | .high, q => { st with highQ := q }
  | .normal, q => { st with normalQ := q }
  | .low, q => { st with lowQ := q }

/-- The sort key used by `sortQueueByScheduledTime`:
`a.scheduledAt?.getTime() || a.createdAt.getTime()` — note the JS `||`
falls back to `createdAt` also when `scheduledAt` is the falsy time 0.
An id not in the store (impossible through the public API) gets key 0. -/
def schedKey (st : QueueState) (taskId : String) : Nat :=
  match lookupTask st taskId with
  | some t =>
    match t.scheduledAt with
    | some s => if s = 0 then t.createdAt else s
    | none => t.createdAt
  | none => 0

/-- Insert `x` after every already-placed element of key ≤ its own. -/
def insertTail (key : String → Nat) (x : String) : List String → List String
  | [] => [x]
  | y :: ys => if key y ≤ key x then y :: insertTail key x ys else x :: y :: ys

/-- Model of `sortQueueByScheduledTime`: JS `Array.prototype.sort` with the numeric
comparator `timeA - timeB` is a stable sort by `schedKey`; modelled as a
stable insertion sort processing elements in their original order. -/
def sortQueueByScheduledTime (key : String → Nat) (queue : List String) : List String :=
  queue.foldl (fun acc x => insertTail key x acc) []

/-- Model of `TaskQueueService.enqueueTask` (lines 81–139): builds the task with
status `pending`, `context = {...request.context, retryCount: 0}`,
`dependencies = request.dependencies || []`, empty `errors`; stores it and
appends it to the bucket matching `request.priority`, then re-sorts that
bucket by scheduled time. `taskId` stands for `generateTaskId()` and `now`
for `new Date()`. -/
def enqueueTask (st : QueueState) (req : CreateTaskRequest) (taskId : String) (now : Nat) :
    QueueState × Task :=
  let task : Task :=
    { id := taskId
      typ := req.typ
      name := req.name
      parameters := req.parameters
      status := .pending
      priority := req.priority
      context := { req.context with retryCount := 0 }
      dependencies := req.dependencies.getD []
      createdAt := now
      updatedAt := now
      scheduledAt := req.scheduledAt
      errors := [] }
  let st1 := { st with tasks := st.tasks ++ [(taskId, task)] }
  let q := queueOf st1 req.priority ++ [taskId]
  (setQueue st1 req.priority (sortQueueByScheduledTime (schedKey st1) q), task)

/-- The status-specific part of `TaskQueueService.updateTaskStatus`
(the `switch (update.status)` plus the `progress` update, lines 193–225):
the status is overwritten unconditionally — the code checks no transition
table. -/
def applyStatusUpdate (t : Task) (u : TaskStatusUpdate) : Task :=
  let t1 := { t with status := u.status, updatedAt := u.timestamp }
  let t2 :=
    match u.status with
    | .running => { t1 with startedAt := some u.timestamp }
    | .completed =>
      { t1 with
        completedAt := some u.timestamp
        result := match u.result with | some r => some r | none => t1.result }
    | .failed =>
      { t1 with
        completedAt := some u.timestamp
        errors := match u.error with | some e => t1.errors ++ [e] | none => t1.errors
        result := match u.result with | some r => some r | none => t1.result }
    | _ => t1
  match u.progress with
  | some p => { t2 with progress := some p }
  | none => t2

/-- Outcome of one registered hook callback: one registered hook callback: `.error ()` models
a thrown/rejected callback. -/
def callHookCallback : Option Bool → Except Unit Unit
  | some true => .error ()
  | _ => .ok ()

/-- The body of one iteration of the loop in
`TaskQueueService.executeStatusChangeHooks` (lines 530–546): the four guarded
callback invocations run sequentially inside a single `try`, so a throw in an
earlier callback of the *same* hook skips its later callbacks. -/
def runHook (task : Task) (h : TaskExecutionHook) : Except Unit Unit := do
  if task.status == .running then callHookCallback h.beforeStart else pure ()
  if task.status == .completed && task.result.isSome then
    callHookCallback h.afterComplete
  else pure ()
  if task.status == .failed && !task.errors.isEmpty then
    callHookCallback h.onError
  else pure ()
  if task.progress.isSome then callHookCallback h.onProgress else pure ()

/-- Model of `TaskQueueService.executeStatusChangeHooks` (lines 529–552): iterates all
registered hooks; each iteration's `try/catch` swallows that hook's throw
(logging it) and the loop continues with the next hook. Returns, per hook,
whether its invocation threw (and was caught). -/
def executeStatusChangeHooks (task : Task) : List TaskExecutionHook → List Bool
  | [] => []
  | h :: rest =>
    (match runHook task h with
     | .ok _ => false
     | .error _ => true) :: executeStatusChangeHooks task rest

/-- Model of `TaskQueueService.updateTaskStatus` (lines 180–253), with the service's
`executionHooks` array passed explicitly: looks the task up (else
`TASK_NOT_FOUND`), overwrites status/timestamps/result/errors/progress per
`applyStatusUpdate` — no transition check, no retry handling (both are TODO
in the source) — then executes the status-change hooks, whose outcomes are
returned but never affect the stored task. -/
def updateTaskStatusWithHooks (st : QueueState) (taskId : String) (u : TaskStatusUpdate)
    (hooks : List TaskExecutionHook) :
    Except QueueError (QueueState × Task × List Bool) :=
  match lookupTask st taskId with
  | none => .error .taskNotFound
  | some t =>
    let t1 := applyStatusUpdate t u
    let st1 := updateTask st taskId fun _ => t1
    .ok (st1, t1, executeStatusChangeHooks t1 hooks)

/-- Model of `updateTaskStatus` with the hook outcomes projected away. -/
def updateTaskStatus (st : QueueState) (taskId : String) (u : TaskStatusUpdate) :
    Except QueueError (QueueState × Task) :=
  (updateTaskStatusWithHooks st taskId u []).map fun r => (r.1, r.2.1)

/-- Remove the first occurrence of `taskId` (the `findIndex`/`splice` pair). -/
def removeFirst (taskId : String) : List String → List String
  | [] => []
  | x :: xs => if x = taskId then xs else x :: removeFirst taskId xs

/-- The queue-removal loop of `cancelTask` (lines 386–392): iterates the
buckets in map-insertion order urgent, high, normal, low and removes the
task from the first bucket that contains it, then breaks. -/
def removeFromQueues (st : QueueState) (taskId : String) : QueueState :=
  if st.urgentQ.contains taskId then { st with urgentQ := removeFirst taskId st.urgentQ }
  else if st.highQ.contains taskId then { st with highQ := removeFirst taskId st.highQ }
  else if st.normalQ.contains taskId then { st with normalQ := removeFirst taskId st.normalQ }
  else if st.lowQ.contains taskId then { st with lowQ := removeFirst taskId st.lowQ }
  else st

/-- Model of `TaskQueueService.cancelTask` (lines 353–412): `TASK_NOT_FOUND` for an
unknown id; `TASK_ALREADY_FINISHED` when the status is in
`['completed', 'failed', 'cancelled']` (note: `'timeout'` is *not* in that
list); otherwise sets status `cancelled`, stamps `updatedAt`/`completedAt`,
and removes the task from its priority bucket. -/
def cancelTask (st : QueueState) (taskId : String) (now : Nat) :
    Except QueueError (QueueState × Task) :=
  match lookupTask st taskId with
  | none => .error .taskNotFound
  | some t =>
    if t.status = .completed ∨ t.status = .failed ∨ t.status = .cancelled then
      .error .taskAlreadyFinished
    else
      let t1 := { t with status := .cancelled, updatedAt := now, completedAt := some now }
      let st1 := removeFromQueues (updateTask st taskId fun _ => t1) taskId
      .ok (st1, t1)

/-- Model of `TaskQueueService.registerWorker` (lines 444–477). -/
def registerWorker (st : QueueState) (workerId : String) (capabilities : List String)
    (now : Nat) : QueueState × QueueWorker :=
  let w : QueueWorker :=
    { id := workerId, status := .idle, currentTasks := [], lastHeartbeat := now
      capabilities := capabilities }
  ({ st with workers := st.workers ++ [(workerId, w)] }, w)

/-- The priority scan order of `processNextTask`:
`['urgent', 'high', 'normal', 'low']`. -/
def scanOrder : List TaskPriority := [.urgent, .high, .normal, .low]

/-- The `for (const priority of ...)` loop of `processNextTask`
(lines 602–636): for each priority in order, if the bucket is non-empty it
*shifts* the head off the bucket; if the shifted task is still `pending` it
is selected (the loop breaks), otherwise the shifted entry has been
discarded and the loop moves on to the **next lower** bucket — it does not
re-examine the remainder of the current bucket in this invocation. -/
def tryDequeue : QueueState → List TaskPriority → QueueState × Option String
  | st, [] => (st, none)
  | st, p :: rest =>
    match queueOf st p with
    | [] => tryDequeue st rest
    | taskId :: qrest =>
      let st1 := setQueue st p qrest
      match lookupTask st1 taskId with
      | some t => if t.status = .pending then (st1, some taskId) else tryDequeue st1 rest
      | none => tryDequeue st1 rest

/-- Model of `TaskQueueService.processNextTask` (lines 594–637): returns immediately
when no worker is idle; otherwise runs the priority scan. The selected task
id is returned (its simulated asynchronous execution via `setTimeout` and
`Math.random` is external nondeterminism and is not part of the dequeue
decision being modelled). -/
def processNextTask (st : QueueState) : QueueState × Option String :=
  if (st.workers.filter fun w => w.2.status == .idle).isEmpty then (st, none)
  else tryDequeue st scanOrder

/-- Model of `TaskQueueService.checkWorkerHealth` (lines 639–653): removes every
worker whose `lastHeartbeat` is older than the hard-coded 2-minute
threshold (`now - 2 * 60 * 1000`); the evicted worker's `currentTasks` are
*not* requeued (a TODO in the source). The JS comparison
`lastHeartbeat < now - 120000` is rendered over `Nat` as
`lastHeartbeat + 120000 < now`, which agrees with the integer comparison. -/
def checkWorkerHealth (st : QueueState) (now : Nat) : QueueState :=
  { st with workers := st.workers.filter fun w => ¬ (w.2.lastHeartbeat + 2 * 60 * 1000 < now) }

/-! ## Agent Orchestration Service (`services/AgentOrchestrationService.ts`) -/

/-- Enum `AgentStatus` from `types/agent.ts`:
`'pending' | 'deploying' | 'active' | 'error' | 'inactive' | 'deleted'`. -/
inductive AgentStatus where
  | pending | deploying | active | err | inactive | deleted
deriving DecidableEq, Repr

/-- Structure `Agent` from `types/agent.ts` (opaque `permissions`, `triggers` and
`config` payloads are omitted: no modelled operation reads them). -/
structure Agent where
  id : String
  name : String
  typ : String
  purpose : String := ""
  capabilities : List String := []
  status : AgentStatus
  environment : String := "development"
  monitoringEnabled : Bool := false
  createdAt : Nat := 0
  updatedAt : Nat := 0
  createdBy : String := "system"
  errorMessage : Option String := none
deriving DecidableEq, Repr

/-- The error codes the modelled orchestration operations return. -/
inductive OrchError where
  | agentNotFound
  | agentNotActive
deriving DecidableEq, Repr

/-- The mutable state of an `AgentOrchestrationService` instance: the
`agents` map and the `runningAgents` set. -/
structure OrchState where
  agents : List (String × Agent)
  runningAgents : List String
deriving DecidableEq, Repr

/-- Model of `AgentOrchestrationService.scheduleAgentTask` (lines 289–354):
`AGENT_NOT_FOUND` for an unknown id; `AGENT_NOT_ACTIVE` whenever
`agent.status !== 'active'`; otherwise builds and returns a `pending` task
whose context is `{...taskRequest.context, agentId, retryCount: 0}`. The
task is only returned, never stored, and the service state is untouched in
every branch (the `TaskQueueService` integration is a TODO in the source).
`taskId` stands for `generateTaskId()` and `now` for `new Date()`. -/
def scheduleAgentTask (st : OrchState) (agentId : String) (req : CreateTaskRequest)
    (taskId : String) (now : Nat) : Except OrchError Task :=
  match List.lookup agentId st.agents with
  | none => .error .agentNotFound
  | some agent =>
    if agent.status ≠ .active then .error .agentNotActive
    else
      .ok
        { id := taskId
          typ := req.typ
          name := req.name
          parameters := req.parameters
          status := .pending
          priority := req.priority
          context := { req.context with agentId := some agentId, retryCount := 0 }
          dependencies := req.dependencies.getD []
          createdAt := now
          updatedAt := now
          scheduledAt := req.scheduledAt
          errors := [] }

/-- Model of `AgentOrchestrationService.deleteAgent` (lines 359–400):
`AGENT_NOT_FOUND` for an unknown id; otherwise *removes* the agent record
from `agents` (and from `runningAgents`) — the record is deleted outright
rather than marked `status = 'deleted'`, and no task is cancelled
(`TODO: Cancel running tasks` in the source). Returns `{ success: true }`. -/
def deleteAgent (st : OrchState) (agentId : String) : Except OrchError (OrchState × Bool) :=
  match List.lookup agentId st.agents with
  | none => .error .agentNotFound
  | some _ =>
    .ok
      ({ agents := st.agents.filter fun p => p.1 ≠ agentId
         runningAgents := st.runningAgents.filter fun a => a ≠ agentId }, true)

/-! ## Status-update request validation
(`app/api/v1/tasks/[id]/status/route.ts`, `validateTaskStatusUpdate`,
lines 338–446).

The JS request body is untyped; the embedding types each field with the
JS type the validator demands of it (so the `typeof`/`Must be an object`
rejection branches are unrepresentable and elide to nothing), but keeps
every presence and range check. JS numbers are modelled as `Int`, which
also absorbs the `Number.isInteger` checks. -/

/-- The `result` sub-object of a status-update request body. -/
structure ReqResult where
  success : Option Bool := none
  executionTime : Option Int := none
  memoryUsage : Option Int := none
  cpuUsage : Option Int := none
deriving DecidableEq, Repr

/-- The `progress` sub-object of a status-update request body. -/
structure ReqProgress where
  percentage : Option Int := none
  currentStep : Option String := none
  totalSteps : Option Int := none
  currentStepNumber : Option Int := none
deriving DecidableEq, Repr

/-- The `error` sub-object of a status-update request body. `message` is
optional because the validator checks its presence (`!body.error.message`
also rejects the falsy empty string). -/
structure ReqError where
  message : Option String := none
  code : Option String := none
  stack : Option String := none
  retryAttempt : Option Int := none
  recoverable : Option Bool := none
deriving DecidableEq, Repr

/-- The parsed JSON body handed to `validateTaskStatusUpdate`. `status` is
kept as a raw string: the validator itself checks it against the allowed
values. -/
structure ReqBody where
  status : Option String := none
  result : Option ReqResult := none
  progress : Option ReqProgress := none
  error : Option ReqError := none
  reason : Option String := none
deriving DecidableEq, Repr

/-- Model of `isValidTaskStatus` (route.ts lines 451–454). -/
def isValidTaskStatus (s : String) : Bool :=
  ["pending", "running", "completed", "failed", "cancelled", "timeout"].contains s

/-- The leading status check: `!body.status || !isValidTaskStatus(body.status)`
(a missing status and the falsy empty string both fail, and the empty
string is not a valid status anyway). -/
def statusErrors (b : ReqBody) : List String :=
  match b.status with
  | some s =>
    if isValidTaskStatus s then []
    else ["status: Required field, must be one of: pending, running, completed, failed, cancelled, timeout"]
  | none => ["status: Required field, must be one of: pending, running, completed, failed, cancelled, timeout"]

/-- The `result` sub-checks (route.ts lines 347–374). -/
def resultErrors (b : ReqBody) : List String :=
  match b.result with
  | none => []
  | some r =>
    (match r.executionTime with
     | some n => if n < 0 then ["result.executionTime: Must be a non-negative integer (milliseconds)"] else []
     | none => []) ++
    (match r.memoryUsage with
     | some n => if n < 0 then ["result.memoryUsage: Must be a non-negative integer (bytes)"] else []
     | none => []) ++
    (match r.cpuUsage with
     | some n => if n < 0 ∨ 100 < n then ["result.cpuUsage: Must be a number between 0 and 100"] else []
     | none => [])

/-- The `progress` sub-checks (route.ts lines 377–404). -/
def progressErrors (b : ReqBody) : List String :=
  match b.progress with
  | none => []
  | some p =>
    (match p.percentage with
     | some n => if n < 0 ∨ 100 < n then ["progress.percentage: Must be a number between 0 and 100"] else []
     | none => []) ++
    (match p.totalSteps with
     | some n => if n < 1 then ["progress.totalSteps: Must be a positive integer if provided"] else []
     | none => []) ++
    (match p.currentStepNumber with
     | some n => if n < 1 then ["progress.currentStepNumber: Must be a positive integer if provided"] else []
     | none => [])

/-- The `error` sub-checks (route.ts lines 407–429). -/
def errorFieldErrors (b : ReqBody) : List String :=
  match b.error with
  | none => []
  | some e =>
    (match e.message with
     | some m => if m = "" then ["error.message: Required field, must be a string"] else []
     | none => ["error.message: Required field, must be a string"]) ++
    (match e.retryAttempt with
     | some n => if n < 0 then ["error.retryAttempt: Must be a non-negative integer if provided"] else []
     | none => [])

/-- The status-dependent requirement rules (route.ts lines 432–438):
`result` is required when status is `'completed'`, `error` when `'failed'`. -/
def statusRuleErrors (b : ReqBody) : List String :=
  (if b.status = some "completed" ∧ b.result = none then
    ["result: Required when status is completed"] else []) ++
  (if b.status = some "failed" ∧ b.error = none then
    ["error: Required when status is failed"] else [])

/-- Model of `validateTaskStatusUpdate` (route.ts lines 338–446): accumulates the
error messages of every check in source order and is valid iff none fired
(the `reason` check only rejects a non-string `reason`, which the typed
embedding cannot express, so it contributes nothing). -/
def validateTaskStatusUpdate (b : ReqBody) : Bool × List String :=
  let errs := statusErrors b ++ resultErrors b ++ progressErrors b ++
    errorFieldErrors b ++ statusRuleErrors b
  (errs.isEmpty, errs)

/-! ## Derived observations on queue states -/

/-- Holds (as `true`) iff at least one registered worker is idle (the guard of
`processNextTask`). -/
def hasIdleWorkerB (st : QueueState) : Bool :=
  !(st.workers.filter fun w => w.2.status == WorkerStatus.idle).isEmpty

/-- All queued entries, highest bucket first. -/
def queuedIds (st : QueueState) : List String :=
  st.urgentQ ++ st.highQ ++ st.normalQ ++ st.lowQ

/-- Holds (as `true`) iff every queued entry still refers to a `pending` task in the
store (no bucket holds a stale entry). -/
def allPendingB (st : QueueState) : Bool :=
  (queuedIds st).all fun taskId =>
    match lookupTask st taskId with
    | some t => t.status == TaskStatus.pending
    | none => false

/-- Written from the spec's dequeue description, for comparison with
`processNextTask`: the head entry of the highest-priority non-empty bucket
in the fixed order urgent → high → normal → low. -/
def firstQueuedId (st : QueueState) : Option String :=
  match st.urgentQ with
  | taskId :: _ => some taskId
  | [] =>
    match st.highQ with
    | taskId :: _ => some taskId
    | [] =>
      match st.normalQ with
      | taskId :: _ => some taskId
      | [] =>
        match st.lowQ with
        | taskId :: _ => some taskId
        | [] => none

/-- How many queue entries (over all four buckets) refer to `taskId`;
`0` means the task is in no priority bucket. -/
def queueCount (st : QueueState) (taskId : String) : Nat :=
  st.urgentQ.count taskId + st.highQ.count taskId +
    st.normalQ.count taskId + st.lowQ.count taskId

/-- Whether `runHook` on this hook would throw (its outcome seen by the
`try/catch` in `executeStatusChangeHooks`). -/
def hookThrew (task : Task) (h : TaskExecutionHook) : Bool :=
  match runHook task h with
  | .ok _ => false
  | .error _ => true

/-! ## Concrete instances used to evaluate the code on specific inputs -/

/-- A freshly registered idle worker. -/
def idleWorker : QueueWorker :=
  { id := "w1", status := .idle, currentTasks := [], lastHeartbeat := 0, capabilities := [] }

/-- A task that has already completed (with its result recorded). -/
def completedTask : Task :=
  { id := "t1", typ := "agent_execution", name := "done", status := .completed
    priority := .normal, context := {}
    result := some { success := true, executionTime := 5 }
    createdAt := 1, updatedAt := 2, completedAt := some 2 }

/-- Service state holding only `completedTask`. -/
def stCompleted : QueueState := { QueueState.empty with tasks := [("t1", completedTask)] }

/-- A running task with `retryCount = 0 < maxRetries = 3`. -/
def runningRetryableTask : Task :=
  { id := "t3", typ := "api_integration", name := "call", status := .running
    priority := .normal, context := { maxRetries := some 3, retryCount := 0 }
    createdAt := 1, updatedAt := 1, startedAt := some 1 }

/-- Service state holding only `runningRetryableTask` (a running task is in
no priority bucket). -/
def stRetryable : QueueState := { QueueState.empty with tasks := [("t3", runningRetryableTask)] }

/-- A recoverable failure report (`recoverable: true`). -/
def recoverableError : TaskError :=
  { timestamp := 9, message := "NETWORK_ERROR", retryAttempt := 0, recoverable := true }

/-- A busy worker holding task `t3`, whose last heartbeat is stale. -/
def staleWorker : QueueWorker :=
  { id := "w1", status := .busy, currentTasks := ["t3"], lastHeartbeat := 0, capabilities := [] }

/-- State for the health-sweep evaluation: the stale `staleWorker` holds the
running task `t3`; all buckets are empty. -/
def stStaleWorker : QueueState :=
  { QueueState.empty with
    tasks := [("t3", runningRetryableTask)], workers := [("w1", staleWorker)] }

/-- A task whose status is `timeout`. -/
def timeoutTask : Task :=
  { id := "tT", typ := "cleanup", name := "sweep", status := .timeout
    priority := .low, context := {}, createdAt := 1, updatedAt := 3 }

/-- Service state holding only `timeoutTask`. -/
def stTimeout : QueueState := { QueueState.empty with tasks := [("tT", timeoutTask)] }

/-- A pending task queued in the normal bucket (for the cancel witness). -/
def pendingNormalTask : Task :=
  { id := "tP", typ := "notification_send", name := "notify", status := .pending
    priority := .normal, context := {}, createdAt := 4, updatedAt := 4 }

/-- State with `pendingNormalTask` queued in the normal bucket. -/
def stPendingNormal : QueueState :=
  { QueueState.empty with
    tasks := [("tP", pendingNormalTask)], workers := [("w1", idleWorker)]
    normalQ := ["tP"] }

/-- A stale (running) entry still sitting at the head of the urgent bucket:
`updateTaskStatus` never removes a task from its bucket, so an externally
started task stays queued. -/
def staleUrgentTask : Task :=
  { id := "tStale", typ := "agent_execution", name := "stale", status := .running
    priority := .urgent, context := {}, createdAt := 1, updatedAt := 2, startedAt := some 2 }

/-- A pending task behind the stale entry in the urgent bucket. -/
def pendingUrgentTask : Task :=
  { id := "tUrg", typ := "agent_execution", name := "urgent", status := .pending
    priority := .urgent, context := {}, createdAt := 2, updatedAt := 2 }

/-- A pending task in the (lower) high bucket. -/
def pendingHighTask : Task :=
  { id := "tHigh", typ := "agent_execution", name := "high", status := .pending
    priority := .high, context := {}, createdAt := 3, updatedAt := 3 }

/-- Queue state in which the urgent bucket is `[tStale, tUrg]` with `tStale`
no longer pending, and the high bucket is `[tHigh]`. -/
def stStaleHead : QueueState :=
  { tasks := [("tStale", staleUrgentTask), ("tUrg", pendingUrgentTask), ("tHigh", pendingHighTask)]
    workers := [("w1", idleWorker)]
    urgentQ := ["tStale", "tUrg"], highQ := ["tHigh"], normalQ := [], lowQ := [] }

/-- The enqueue request of the spec's three-task scenario, per priority:
all three share `scheduledAt = 500`. -/
def scenarioReq (p : TaskPriority) : CreateTaskRequest :=
  { typ := "agent_execution", name := "job", priority := p, context := {}
    scheduledAt := some 500 }

/-- Scenario start state: one idle worker registered on the empty service. -/
def scenarioSt0 : QueueState := (registerWorker QueueState.empty "w1" [] 0).1

/-- Scenario after enqueueing the `low` task. -/
def scenarioSt1 : QueueState := (enqueueTask scenarioSt0 (scenarioReq .low) "tLow" 1000).1

/-- Scenario after also enqueueing the `urgent` task. -/
def scenarioSt2 : QueueState := (enqueueTask scenarioSt1 (scenarioReq .urgent) "tUrgent" 1001).1

/-- Scenario after also enqueueing the `normal` task. -/
def scenarioSt3 : QueueState := (enqueueTask scenarioSt2 (scenarioReq .normal) "tNormal" 1002).1

/-- First dequeue step of the scenario. -/
def scenarioD1 : QueueState × Option String := processNextTask scenarioSt3

/-- Second dequeue step of the scenario. -/
def scenarioD2 : QueueState × Option String := processNextTask scenarioD1.1

/-- Third dequeue step of the scenario. -/
def scenarioD3 : QueueState × Option String := processNextTask scenarioD2.1

/-- An active agent record. -/
def activeAgent : Agent := { id := "a1", name := "alpha", typ := "standard", status := .active }

/-- A deploying (not yet active) agent record. -/
def deployingAgent : Agent := { id := "a2", name := "beta", typ := "standard", status := .deploying }

/-- Orchestration state holding `activeAgent` and `deployingAgent`. -/
def stAgents : OrchState :=
  { agents := [("a1", activeAgent), ("a2", deployingAgent)], runningAgents := ["a1"] }

/-- A plain task request used when exercising `scheduleAgentTask`. -/
def plainReq : CreateTaskRequest :=
  { typ := "agent_execution", name := "run", priority := .normal
    context := { userId := some "u1", retryCount := 7 } }

/-- A status-update body that is completed, carries the required `result`
field and a valid status, but whose `result.executionTime` is negative. -/
def badExecTimeBody : ReqBody :=
  { status := some "completed", result := some { executionTime := some (-1) } }

/-- Well-formedness the route demands of a supplied `result` sub-object
(every range check passes). -/
def wellFormedResult (r : ReqResult) : Bool :=
  (match r.executionTime with | some n => decide (0 ≤ n) | none => true) &&
  (match r.memoryUsage with | some n => decide (0 ≤ n) | none => true) &&
  (match r.cpuUsage with | some n => decide (0 ≤ n ∧ n ≤ 100) | none => true)

/-- Well-formedness the route demands of a supplied `progress` sub-object. -/
def wellFormedProgress (p : ReqProgress) : Bool :=
  (match p.percentage with | some n => decide (0 ≤ n ∧ n ≤ 100) | none => true) &&
  (match p.totalSteps with | some n => decide (1 ≤ n) | none => true) &&
  (match p.currentStepNumber with | some n => decide (1 ≤ n) | none => true)

/-- Well-formedness the route demands of a supplied `error` sub-object
(a non-empty message, and a non-negative retry attempt when given). -/
def wellFormedError (e : ReqError) : Bool :=
  (match e.message with | some m => decide (m ≠ "") | none => false) &&
  (match e.retryAttempt with | some n => decide (0 ≤ n) | none => true)

/-- Well-formedness of a whole status-update body: a valid status value and
well-formed sub-objects wherever they are supplied. -/
def wellFormedBody (b : ReqBody) : Bool :=
  (match b.status with | some s => isValidTaskStatus s | none => false) &&
  (match b.result with | some r => wellFormedResult r | none => true) &&
  (match b.progress with | some p => wellFormedProgress p | none => true) &&
  (match b.error with | some e => wellFormedError e | none => true)

/-! ## Helper lemmas -/

theorem lookupTask_setQueue (st : QueueState) (p : TaskPriority) (q : List String)
    (taskId : String) : lookupTask (setQueue st p q) taskId = lookupTask st taskId := by
  cases p <;> rfl

theorem queueOf_setQueue (st : QueueState) (p p' : TaskPriority) (q : List String) :
    queueOf (setQueue st p q) p' = if p' = p then q else queueOf st p' := by
  cases p <;> cases p' <;> simp [setQueue, queueOf]

theorem tryDequeue_cons_nil (st : QueueState) (p : TaskPriority) (rest : List TaskPriority)
    (hq : queueOf st p = []) : tryDequeue st (p :: rest) = tryDequeue st rest := by
  simp only [tryDequeue, hq]

theorem tryDequeue_cons_pending (st : QueueState) (p : TaskPriority)
    (rest : List TaskPriority) (a : String) (q : List String) (t : Task)
    (hq : queueOf st p = a :: q) (hl : lookupTask st a = some t)
    (ht : t.status = .pending) :
    tryDequeue st (p :: rest) = (setQueue st p q, some a) := by
  simp only [tryDequeue, hq, lookupTask_setQueue, hl, ht, if_true]

theorem tryDequeue_cons_cons (st : QueueState) (p : TaskPriority)
    (rest : List TaskPriority) (a : String) (q : List String)
    (hq : queueOf st p = a :: q) :
    tryDequeue st (p :: rest) =
      match lookupTask (setQueue st p q) a with
      | some t =>
        if t.status = .pending then (setQueue st p q, some a)
        else tryDequeue (setQueue st p q) rest
      | none => tryDequeue (setQueue st p q) rest := by
  simp only [tryDequeue, hq]

theorem mem_of_tryDequeue_some :
    ∀ (ps : List TaskPriority) (st st2 : QueueState) (taskId : String),
      tryDequeue st ps = (st2, some taskId) → ∃ p, p ∈ ps ∧ taskId ∈ queueOf st p := by
  intro ps
  induction ps with
  | nil => intro st st2 taskId h; simp [tryDequeue] at h
  | cons p rest ih =>
    intro st st2 taskId h
    cases hq : queueOf st p with
    | nil =>
      rw [tryDequeue_cons_nil st p rest hq] at h
      obtain ⟨p', hp', hmem⟩ := ih st st2 taskId h
      exact ⟨p', List.mem_cons_of_mem _ hp', hmem⟩
    | cons a qrest =>
      rw [tryDequeue_cons_cons st p rest a qrest hq] at h
      have hrec : tryDequeue (setQueue st p qrest) rest = (st2, some taskId) →
          ∃ p', p' ∈ p :: rest ∧ taskId ∈ queueOf st p' := by
        intro h2
        obtain ⟨p', hp', hmem⟩ := ih _ st2 taskId h2
        rw [queueOf_setQueue] at hmem
        by_cases hpp : p' = p
        · rw [if_pos hpp] at hmem
          refine ⟨p, List.mem_cons_self _ _, ?_⟩
          rw [hq]; exact List.mem_cons_of_mem _ hmem
        · rw [if_neg hpp] at hmem
          exact ⟨p', List.mem_cons_of_mem _ hp', hmem⟩
      cases hl : lookupTask (setQueue st p qrest) a with
      | none => simp only [hl] at h; exact hrec h
      | some t =>
        simp only [hl] at h
        by_cases ht : t.status = .pending
        · rw [if_pos ht] at h
          have ha : a = taskId := by
            have := congrArg Prod.snd h
            simpa using this
          subst ha
          exact ⟨p, List.mem_cons_self _ _, by rw [hq]; exact List.mem_cons_self _ _⟩
        · rw [if_neg ht] at h; exact hrec h

theorem count_queueOf_eq_zero (st : QueueState) (taskId : String)
    (h : queueCount st taskId = 0) : ∀ p, taskId ∉ queueOf st p := by
  unfold queueCount at h
  intro p
  have h4 : st.urgentQ.count taskId = 0 ∧ st.highQ.count taskId = 0 ∧
      st.normalQ.count taskId = 0 ∧ st.lowQ.count taskId = 0 := by omega
  cases p <;> simp only [queueOf] <;>
    [exact List.count_eq_zero.mp h4.2.2.2;
     exact List.count_eq_zero.mp h4.2.2.1;
     exact List.count_eq_zero.mp h4.2.1;
     exact List.count_eq_zero.mp h4.1]

theorem processNextTask_mem (st : QueueState) (taskId : String)
    (h : (processNextTask st).2 = some taskId) : ∃ p, taskId ∈ queueOf st p := by
  unfold processNextTask at h
  split at h
  · simp at h
  · rcases hr : tryDequeue st scanOrder with ⟨st2, sel⟩
    rw [hr] at h
    simp only at h
    subst h
    obtain ⟨p, _, hmem⟩ := mem_of_tryDequeue_some scanOrder st st2 taskId hr
    exact ⟨p, hmem⟩

theorem count_removeFirst_self (taskId : String) :
    ∀ l : List String, (removeFirst taskId l).count taskId = l.count taskId - 1 := by
  intro l
  induction l with
  | nil => rfl
  | cons x xs ih =>
    by_cases hx : x = taskId
    · subst hx
      rw [show removeFirst x (x :: xs) = xs from by simp [removeFirst]]
      rw [List.count_cons_self]
      omega
    · have hx' : ¬ taskId = x := fun hc => hx hc.symm
      rw [show removeFirst taskId (x :: xs) = x :: removeFirst taskId xs from by
        simp [removeFirst, hx]]
      rw [List.count_cons_of_ne hx', List.count_cons_of_ne hx', ih]

theorem queueCount_removeFromQueues (st : QueueState) (taskId : String)
    (h : queueCount st taskId ≤ 1) :
    queueCount (removeFromQueues st taskId) taskId = 0 := by
  have hcnt := count_removeFirst_self taskId
  unfold removeFromQueues
  split_ifs with h1 h2 h3 h4
  · have hm : taskId ∈ st.urgentQ := by simpa using h1
    have : 0 < st.urgentQ.count taskId := List.count_pos_iff.mpr hm
    unfold queueCount at h ⊢
    simp only
    rw [hcnt st.urgentQ]
    omega
  · have hm : taskId ∈ st.highQ := by simpa using h2
    have : 0 < st.highQ.count taskId := List.count_pos_iff.mpr hm
    unfold queueCount at h ⊢
    simp only
    rw [hcnt st.highQ]
    omega
  · have hm : taskId ∈ st.normalQ := by simpa using h3
    have : 0 < st.normalQ.count taskId := List.count_pos_iff.mpr hm
    unfold queueCount at h ⊢
    simp only
    rw [hcnt st.normalQ]
    omega
  · have hm : taskId ∈ st.lowQ := by simpa using h4
    have : 0 < st.lowQ.count taskId := List.count_pos_iff.mpr hm
    unfold queueCount at h ⊢
    simp only
    rw [hcnt st.lowQ]
    omega
  · have hu : taskId ∉ st.urgentQ := by simpa using h1
    have hh : taskId ∉ st.highQ := by simpa using h2
    have hn : taskId ∉ st.normalQ := by simpa using h3
    have hl : taskId ∉ st.lowQ := by simpa using h4
    unfold queueCount
    rw [List.count_eq_zero.mpr hu, List.count_eq_zero.mpr hh,
      List.count_eq_zero.mpr hn, List.count_eq_zero.mpr hl]

theorem queueCount_updateTask (st : QueueState) (taskId taskId2 : String)
    (f : Task → Task) : queueCount (updateTask st taskId2 f) taskId = queueCount st taskId :=
  rfl

/-! ## Claim theorems -/

/-- C1. The claim says `updateTaskStatus` rejects every transition out of a
terminal status with an `InvalidTransition` error and enforces the table
pending→running, running→{completed, failed, timeout},
{pending, running}→cancelled. The code enforces no transition table at all
(its error type does not even contain an `InvalidTransition` code):
evaluated on a `completed` task, an update to `running` is accepted, the
stored status becomes `running` and `startedAt` is overwritten — the spec
itself (§9) declares this looser behaviour a defect of the code. -/
theorem updateTaskStatus_accepts_terminal_transition :
    completedTask.status = .completed ∧
    ∃ st2 t2,
      updateTaskStatus stCompleted "t1" { status := .running, timestamp := 7 } =
        .ok (st2, t2) ∧
      t2.status = .running ∧ t2.startedAt = some 7 :=
  ⟨rfl, _, _, rfl, rfl, rfl⟩

/-- C3. The claim says a recoverable failure with `retryCount < maxRetries`
sends the task back to `pending` with an incremented `retryCount`, a
backoff-delayed `scheduledAt` and a re-enqueue. The code has no retry logic
(`TODO: Handle retry logic for failed tasks`): evaluated on a running task
with `retryCount = 0 < maxRetries = 3` and a recoverable error, the task
becomes terminally `failed`, `retryCount` stays 0, `scheduledAt` stays
unset and the task is in no priority bucket afterwards. -/
theorem updateTaskStatus_no_retry_on_recoverable_failure :
    recoverableError.recoverable = true ∧
    runningRetryableTask.context.retryCount = 0 ∧
    runningRetryableTask.context.maxRetries = some 3 ∧
    ∃ st2 t2,
      updateTaskStatus stRetryable "t3"
          { status := .failed, timestamp := 9, error := some recoverableError } =
        .ok (st2, t2) ∧
      t2.status = .failed ∧ t2.context.retryCount = 0 ∧ t2.scheduledAt = none ∧
      queueCount st2 "t3" = 0 :=
  ⟨rfl, rfl, rfl, _, _, rfl, rfl, rfl, rfl, rfl⟩

/-- C4. The claim says the health sweep requeues every task held by an
evicted stale worker to the head of its bucket with status reset to
`pending`. The code only deletes the worker entry
(`TODO: Reassign worker's tasks to other workers`): evaluated on a stale
worker holding the running task `t3`, after the sweep the worker is gone,
`t3` is in no priority bucket and its record is completely unchanged (still
`running`, not `pending`). The staleness threshold is also the hard-coded
2 minutes, not `2 × healthCheckInterval`. -/
theorem checkWorkerHealth_loses_held_tasks :
    staleWorker.currentTasks = ["t3"] ∧
    (checkWorkerHealth stStaleWorker 600000).workers = [] ∧
    queueCount (checkWorkerHealth stStaleWorker 600000) "t3" = 0 ∧
    lookupTask (checkWorkerHealth stStaleWorker 600000) "t3" = some runningRetryableTask ∧
    runningRetryableTask.status = .running :=
  ⟨rfl, rfl, rfl, rfl, rfl⟩

/-- C7. The claim says `deleteAgent` cancels the agent's non-terminal
tasks, sets its status to `deleted` and is idempotent. The code touches no
task whatsoever (`TODO: Cancel running tasks`; its signature reaches no
task store), *removes* the agent record instead of marking it `deleted`,
and a second invocation on the same id fails with `AGENT_NOT_FOUND`. -/
theorem deleteAgent_removes_record_not_idempotent :
    ∃ st2, deleteAgent stAgents "a1" = .ok (st2, true) ∧
      List.lookup "a1" st2.agents = none ∧
      deleteAgent st2 "a1" = .error .agentNotFound :=
  ⟨_, rfl, rfl, rfl⟩

/-- C10. For every request, the task built by `enqueueTask` carries
`context = {...request.context, retryCount: 0}` (any caller-supplied
`retryCount` is overwritten with 0), an empty error history, and
`dependencies = request.dependencies || []`. -/
theorem enqueueTask_fresh_context :
    ∀ (st : QueueState) (req : CreateTaskRequest) (taskId : String) (now : Nat),
      (enqueueTask st req taskId now).2.context = { req.context with retryCount := 0 } ∧
      (enqueueTask st req taskId now).2.context.retryCount = 0 ∧
      (enqueueTask st req taskId now).2.errors = [] ∧
      (enqueueTask st req taskId now).2.dependencies = req.dependencies.getD [] :=
  fun _ _ _ _ => ⟨rfl, rfl, rfl, rfl⟩

/-- C5. For an agent found in the registry, `scheduleAgentTask` fails with
`AGENT_NOT_ACTIVE` whenever the agent's status differs from `active`
(pending, deploying, error, inactive or deleted), touching no state; when
the status is `active` it returns a `pending` task whose `context.agentId`
is the agent's id. -/
theorem scheduleAgentTask_requires_active :
    ∀ (st : OrchState) (agentId : String) (req : CreateTaskRequest) (taskId : String)
      (now : Nat) (agent : Agent),
      List.lookup agentId st.agents = some agent →
      (agent.status ≠ .active →
        scheduleAgentTask st agentId req taskId now = .error .agentNotActive) ∧
      (agent.status = .active →
        ∃ t, scheduleAgentTask st agentId req taskId now = .ok t ∧
          t.status = .pending ∧ t.context.agentId = some agentId) := by
  intro st agentId req taskId now agent hl
  simp only [scheduleAgentTask, hl]
  constructor
  · intro h
    rw [if_pos h]
  · intro h
    rw [if_neg (by simp [h])]
    exact ⟨_, rfl, rfl, rfl⟩

/-- Witness for C5: in `stAgents`, scheduling on the deploying agent `a2`
fails `AGENT_NOT_ACTIVE`, and scheduling on the active agent `a1` yields a
pending task bound to `a1`. -/
theorem scheduleAgentTask_requires_active_witness :
    scheduleAgentTask stAgents "a2" plainReq "tX" 5 = .error .agentNotActive ∧
    ∃ t, scheduleAgentTask stAgents "a1" plainReq "tY" 5 = .ok t ∧
      t.status = .pending ∧ t.context.agentId = some "a1" :=
  ⟨(scheduleAgentTask_requires_active stAgents "a2" plainReq "tX" 5 deployingAgent
      rfl).1 (by decide),
   (scheduleAgentTask_requires_active stAgents "a1" plainReq "tY" 5 activeAgent
      rfl).2 rfl⟩

/-- C9. Hook delivery is isolated per observer: the loop of
`executeStatusChangeHooks` records an attempt for *every* registered hook
(each hook's outcome is that of running it alone — an earlier hook's caught
throw never prevents a later hook from running), and the task and state
`updateTaskStatus` stores are the same whatever the hooks do (the result
with any hook list projects to the hook-free result). -/
theorem executeStatusChangeHooks_isolated :
    (∀ (task : Task) (hooks : List TaskExecutionHook),
      executeStatusChangeHooks task hooks = hooks.map (hookThrew task)) ∧
    (∀ (st : QueueState) (taskId : String) (u : TaskStatusUpdate)
      (hooks : List TaskExecutionHook),
      (updateTaskStatusWithHooks st taskId u hooks).map (fun r => (r.1, r.2.1)) =
        updateTaskStatus st taskId u) := by
  constructor
  · intro task hooks
    induction hooks with
    | nil => rfl
    | cons h rest ih =>
      simp only [executeStatusChangeHooks, List.map, ih, hookThrew]
  · intro st taskId u hooks
    unfold updateTaskStatus updateTaskStatusWithHooks
    cases lookupTask st taskId <;> rfl

/-- C2 (counterexample). The claim "if a pending task exists in a higher
bucket, no task from a lower bucket is selected before it" fails on the
code: in `stStaleHead` the urgent bucket is `[tStale, tUrg]` where `tStale`
is no longer pending but `tUrg` still is, yet `processNextTask` discards
`tStale`, skips the rest of the urgent bucket, and selects `tHigh` from the
lower high bucket. -/
theorem processNextTask_skips_pending_behind_stale :
    lookupTask stStaleHead "tUrg" = some pendingUrgentTask ∧
    pendingUrgentTask.status = .pending ∧
    "tUrg" ∈ stStaleHead.urgentQ ∧
    (processNextTask stStaleHead).2 = some "tHigh" :=
  ⟨rfl, rfl, by decide, by decide⟩

/-- C2 (amended). On queue states where every queued entry is still
pending (and some worker is idle), the dequeue step selects exactly the
head of the highest-priority non-empty bucket in the fixed order
urgent → high → normal → low — so no lower-bucket task is ever selected
while a higher bucket is non-empty. In particular the spec's scenario
holds: three tasks enqueued with priorities [low, urgent, normal] and equal
`scheduledAt` dequeue in the order urgent, normal, low. -/
theorem processNextTask_strict_priority :
    (∀ st : QueueState, hasIdleWorkerB st = true → allPendingB st = true →
      (processNextTask st).2 = firstQueuedId st) ∧
    (scenarioD1.2 = some "tUrgent" ∧ scenarioD2.2 = some "tNormal" ∧
      scenarioD3.2 = some "tLow") := by
  constructor
  · intro st hidle hpend
    have hfilter : ¬ ((st.workers.filter fun w =>
        w.2.status == WorkerStatus.idle).isEmpty = true) := by
      simp only [hasIdleWorkerB, Bool.not_eq_true'] at hidle
      simp [hidle]
    have hp : ∀ taskId ∈ queuedIds st,
        ∃ t, lookupTask st taskId = some t ∧ t.status = .pending := by
      intro taskId hmem
      have hall := List.all_eq_true.mp hpend taskId hmem
      cases hl : lookupTask st taskId with
      | none => rw [hl] at hall; simp at hall
      | some t =>
        rw [hl] at hall
        exact ⟨t, rfl, by simpa using hall⟩
    unfold processNextTask
    rw [if_neg hfilter]
    show (tryDequeue st [.urgent, .high, .normal, .low]).2 = firstQueuedId st
    cases hU : st.urgentQ with
    | cons a q =>
      obtain ⟨t, hl, ht⟩ := hp a (by simp [queuedIds, hU])
      rw [tryDequeue_cons_pending st .urgent _ a q t hU hl ht]
      simp [firstQueuedId, hU]
    | nil =>
      rw [tryDequeue_cons_nil st .urgent _ hU]
      cases hH : st.highQ with
      | cons a q =>
        obtain ⟨t, hl, ht⟩ := hp a (by simp [queuedIds, hH])
        rw [tryDequeue_cons_pending st .high _ a q t hH hl ht]
        simp [firstQueuedId, hU, hH]
      | nil =>
        rw [tryDequeue_cons_nil st .high _ hH]
        cases hN : st.normalQ with
        | cons a q =>
          obtain ⟨t, hl, ht⟩ := hp a (by simp [queuedIds, hN])
          rw [tryDequeue_cons_pending st .normal _ a q t hN hl ht]
          simp [firstQueuedId, hU, hH, hN]
        | nil =>
          rw [tryDequeue_cons_nil st .normal _ hN]
          cases hL : st.lowQ with
          | cons a q =>
            obtain ⟨t, hl, ht⟩ := hp a (by simp [queuedIds, hL])
            rw [tryDequeue_cons_pending st .low _ a q t hL hl ht]
            simp [firstQueuedId, hU, hH, hN, hL]
          | nil =>
            rw [tryDequeue_cons_nil st .low _ hL]
            simp [tryDequeue, firstQueuedId, hU, hH, hN, hL]
  · exact ⟨by decide, by decide, by decide⟩

/-- Witness for C2: the scenario state (all entries pending, one idle
worker) satisfies the hypotheses, and the dequeue there returns the head of
the highest non-empty bucket. -/
theorem processNextTask_strict_priority_witness :
    hasIdleWorkerB scenarioSt3 = true ∧ allPendingB scenarioSt3 = true ∧
    (processNextTask scenarioSt3).2 = firstQueuedId scenarioSt3 :=
  ⟨by decide, by decide,
   processNextTask_strict_priority.1 scenarioSt3 (by decide) (by decide)⟩

/-- C6 (counterexample). The claim says `cancelTask` fails with
`TaskAlreadyFinished` for every task in a terminal status including
`timeout`. The code's terminal check is
`['completed', 'failed', 'cancelled'].includes(task.status)` — `'timeout'`
is missing — so cancelling the `timeout` task `tT` *succeeds* and flips its
status to `cancelled`. -/
theorem cancelTask_accepts_timeout :
    timeoutTask.status = .timeout ∧
    ∃ st2 t2, cancelTask stTimeout "tT" 50 = .ok (st2, t2) ∧ t2.status = .cancelled :=
  ⟨rfl, _, _, rfl, rfl⟩

/-- C6 (amended). `cancelTask` fails `TASK_NOT_FOUND` for an unknown id and
`TASK_ALREADY_FINISHED` for a task whose status is completed, failed or
cancelled (returning the error without touching any state); it *succeeds*
exactly when the status is pending, running or `timeout` (the code's
terminal check omits `timeout`), setting the status to `cancelled` and
removing the task from its priority bucket — provided the task occupied at
most one bucket slot, it is afterwards in no bucket, and a task in no
bucket is never returned by a subsequent dequeue. -/
theorem cancelTask_spec :
    (∀ (st : QueueState) (taskId : String) (now : Nat),
      lookupTask st taskId = none → cancelTask st taskId now = .error .taskNotFound) ∧
    (∀ (st : QueueState) (taskId : String) (now : Nat) (t : Task),
      lookupTask st taskId = some t →
      (t.status = .completed ∨ t.status = .failed ∨ t.status = .cancelled) →
      cancelTask st taskId now = .error .taskAlreadyFinished) ∧
    (∀ (st : QueueState) (taskId : String) (now : Nat) (t : Task),
      lookupTask st taskId = some t →
      (t.status = .pending ∨ t.status = .running ∨ t.status = .timeout) →
      queueCount st taskId ≤ 1 →
      ∃ st2 t2, cancelTask st taskId now = .ok (st2, t2) ∧
        t2.status = .cancelled ∧ queueCount st2 taskId = 0) ∧
    (∀ (st : QueueState) (taskId : String),
      queueCount st taskId = 0 → (processNextTask st).2 ≠ some taskId) := by
  refine ⟨?_, ?_, ?_, ?_⟩
  · intro st taskId now hl
    simp only [cancelTask, hl]
  · intro st taskId now t hl hterm
    simp only [cancelTask, hl]
    rw [if_pos hterm]
  · intro st taskId now t hl hlive hcnt
    have hterm : ¬ (t.status = .completed ∨ t.status = .failed ∨ t.status = .cancelled) := by
      rcases hlive with h | h | h <;> simp [h]
    simp only [cancelTask, hl]
    rw [if_neg hterm]
    refine ⟨_, _, rfl, rfl, ?_⟩
    have hcnt2 : queueCount (updateTask st taskId fun _ =>
        { t with status := .cancelled, updatedAt := now, completedAt := some now })
          taskId ≤ 1 := by
      rw [queueCount_updateTask]; exact hcnt
    exact queueCount_removeFromQueues _ taskId hcnt2
  · intro st taskId hcnt hsel
    obtain ⟨p, hmem⟩ := processNextTask_mem st taskId hsel
    exact count_queueOf_eq_zero st taskId hcnt p hmem

/-- Witness for C6: cancelling the pending task `tP`, queued once in the
normal bucket of `stPendingNormal`, succeeds, marks it cancelled and leaves
it in no bucket. -/
theorem cancelTask_spec_witness :
    ∃ st2 t2, cancelTask stPendingNormal "tP" 9 = .ok (st2, t2) ∧
      t2.status = .cancelled ∧ queueCount st2 "tP" = 0 :=
  cancelTask_spec.2.2.1 stPendingNormal "tP" 9 pendingNormalTask rfl
    (Or.inl rfl) (by decide)

/-- C8 (counterexample). The claim says every update that includes the
required field (and a well-formed status) passes the validation. The body
`badExecTimeBody` has status `"completed"` and does include a `result`, yet
fails validation because its `result.executionTime` is negative: the
sub-field range checks can still reject an update that carries the required
field. -/
theorem validateTaskStatusUpdate_subfield_rejection :
    badExecTimeBody.status = some "completed" ∧
    badExecTimeBody.result.isSome = true ∧
    (validateTaskStatusUpdate badExecTimeBody).1 = false :=
  ⟨rfl, rfl, by decide⟩

/-- C8 (amended). The route validation rejects every update whose status is
`"completed"` without a `result` and every update whose status is
`"failed"` without an `error`; conversely an update passes the validation
provided its status is valid, every supplied sub-object is itself
well-formed, and the field required by its status is present. -/
theorem validateTaskStatusUpdate_required_fields :
    (∀ b : ReqBody, b.status = some "completed" → b.result = none →
      (validateTaskStatusUpdate b).1 = false) ∧
    (∀ b : ReqBody, b.status = some "failed" → b.error = none →
      (validateTaskStatusUpdate b).1 = false) ∧
    (∀ b : ReqBody, wellFormedBody b = true →
      (b.status = some "completed" → b.result.isSome = true) →
      (b.status = some "failed" → b.error.isSome = true) →
      (validateTaskStatusUpdate b).1 = true) := by
  refine ⟨?_, ?_, ?_⟩
  · intro b h1 h2
    have hrule : "result: Required when status is completed" ∈ statusRuleErrors b := by
      unfold statusRuleErrors
      rw [if_pos (And.intro h1 h2)]
      exact List.mem_append.mpr (Or.inl (List.mem_cons_self _ _))
    have hmem : "result: Required when status is completed" ∈
        statusErrors b ++ resultErrors b ++ progressErrors b ++
          errorFieldErrors b ++ statusRuleErrors b :=
      List.mem_append.mpr (Or.inr hrule)
    show (statusErrors b ++ resultErrors b ++ progressErrors b ++
      errorFieldErrors b ++ statusRuleErrors b).isEmpty = false
    rw [List.isEmpty_eq_false]
    exact List.ne_nil_of_mem hmem
  · intro b h1 h2
    have hP : ¬ (b.status = some "completed" ∧ b.result = none) := by
      rintro ⟨hc, -⟩
      rw [h1] at hc
      exact absurd hc (by decide)
    have hrule : "error: Required when status is failed" ∈ statusRuleErrors b := by
      unfold statusRuleErrors
      rw [if_neg hP, if_pos (And.intro h1 h2)]
      exact List.mem_append.mpr (Or.inr (List.mem_cons_self _ _))
    have hmem : "error: Required when status is failed" ∈
        statusErrors b ++ resultErrors b ++ progressErrors b ++
          errorFieldErrors b ++ statusRuleErrors b :=
      List.mem_append.mpr (Or.inr hrule)
    show (statusErrors b ++ resultErrors b ++ progressErrors b ++
      errorFieldErrors b ++ statusRuleErrors b).isEmpty = false
    rw [List.isEmpty_eq_false]
    exact List.ne_nil_of_mem hmem
  · intro b hwf hres herr
    simp only [wellFormedBody, Bool.and_eq_true] at hwf
    obtain ⟨⟨⟨hstat, hres'⟩, hprog'⟩, herr'⟩ := hwf
    have h1 : statusErrors b = [] := by
      cases hs : b.status with
      | none => rw [hs] at hstat; exact absurd hstat (by simp)
      | some s =>
        rw [hs] at hstat
        have hstat2 : isValidTaskStatus s = true := hstat
        simp only [statusErrors, hs]
        rw [if_pos hstat2]
    have h2 : resultErrors b = [] := by
      cases hr : b.result with
      | none => simp [resultErrors, hr]
      | some r =>
        rw [hr] at hres'
        simp only [wellFormedResult, Bool.and_eq_true] at hres'
        obtain ⟨⟨het, hmu⟩, hcu⟩ := hres'
        simp only [resultErrors, hr]
        rw [List.append_eq_nil, List.append_eq_nil]
        refine ⟨⟨?_, ?_⟩, ?_⟩
        · cases he : r.executionTime with
          | none => rfl
          | some n =>
            rw [he] at het
            have hn : (0:Int) ≤ n := of_decide_eq_true het
            exact if_neg (by omega)
        · cases hm : r.memoryUsage with
          | none => rfl
          | some n =>
            rw [hm] at hmu
            have hn : (0:Int) ≤ n := of_decide_eq_true hmu
            exact if_neg (by omega)
        · cases hc : r.cpuUsage with
          | none => rfl
          | some n =>
            rw [hc] at hcu
            have hn : (0:Int) ≤ n ∧ n ≤ 100 := of_decide_eq_true hcu
            exact if_neg (by omega)
    have h3 : progressErrors b = [] := by
      cases hp : b.progress with
      | none => simp [progressErrors, hp]
      | some p =>
        rw [hp] at hprog'
        simp only [wellFormedProgress, Bool.and_eq_true] at hprog'
        obtain ⟨⟨hpc, hts⟩, hcs⟩ := hprog'
        simp only [progressErrors, hp]
        rw [List.append_eq_nil, List.append_eq_nil]
        refine ⟨⟨?_, ?_⟩, ?_⟩
        · cases hx : p.percentage with
          | none => rfl
          | some n =>
            rw [hx] at hpc
            have hn : (0:Int) ≤ n ∧ n ≤ 100 := of_decide_eq_true hpc
            exact if_neg (by omega)
        · cases hx : p.totalSteps with
          | none => rfl
          | some n =>
            rw [hx] at hts
            have hn : (1:Int) ≤ n := of_decide_eq_true hts
            exact if_neg (by omega)
        · cases hx : p.currentStepNumber with
          | none => rfl
          | some n =>
            rw [hx] at hcs
            have hn : (1:Int) ≤ n := of_decide_eq_true hcs
            exact if_neg (by omega)
    have h4 : errorFieldErrors b = [] := by
      cases he : b.error with
      | none => simp [errorFieldErrors, he]
      | some e =>
        rw [he] at herr'
        simp only [wellFormedError, Bool.and_eq_true] at herr'
        obtain ⟨hmsg, hra⟩ := herr'
        simp only [errorFieldErrors, he]
        rw [List.append_eq_nil]
        refine ⟨?_, ?_⟩
        · cases hm : e.message with
          | none => rw [hm] at hmsg; exact absurd hmsg (by simp)
          | some m =>
            rw [hm] at hmsg
            have hne : m ≠ "" := of_decide_eq_true hmsg
            exact if_neg hne
        · cases hx : e.retryAttempt with
          | none => rfl
          | some n =>
            rw [hx] at hra
            have hn : (0:Int) ≤ n := of_decide_eq_true hra
            exact if_neg (by omega)
    have h5 : statusRuleErrors b = [] := by
      have hP : ¬ (b.status = some "completed" ∧ b.result = none) := by
        rintro ⟨hc, hr0⟩
        have := hres hc
        rw [hr0] at this
        exact absurd this (by simp)
      have hQ : ¬ (b.status = some "failed" ∧ b.error = none) := by
        rintro ⟨hc, hr0⟩
        have := herr hc
        rw [hr0] at this
        exact absurd this (by simp)
      unfold statusRuleErrors
      rw [if_neg hP, if_neg hQ]
      rfl
    show (statusErrors b ++ resultErrors b ++ progressErrors b ++
      errorFieldErrors b ++ statusRuleErrors b).isEmpty = true
    rw [h1, h2, h3, h4, h5]
    rfl

/-- Witness for C8: a completed update without a result is rejected, and a
plain well-formed running update passes. -/
theorem validateTaskStatusUpdate_required_fields_witness :
    (validateTaskStatusUpdate { status := some "completed" }).1 = false ∧
    (validateTaskStatusUpdate { status := some "running" }).1 = true :=
  ⟨validateTaskStatusUpdate_required_fields.1 { status := some "completed" } rfl rfl,
   validateTaskStatusUpdate_required_fields.2.2 { status := some "running" }
     (by decide) (by decide) (by decide)⟩

end AgentForge
